import Mathlib

/-!
Shallow embedding of the quiz submission and grading pipeline of
`quizmaster/quiz/views.py`, together with the grade-distribution
analytics, and theorems settling the specification claims.

Conventions of the embedding:
* JSON values decoded by `json.loads` are the inductive `Json`; a request
  body that fails to decode is `Option.none` at the `Option Json` level.
* Python exceptions that the code can raise or catch are the inductive
  `PyErr`; a Python function that can raise is embedded in `Except PyErr`.
* Database rows (Quiz, Question, Option, QuizAttempt, StudentAnswer) are
  structures; the tables are lists carried explicitly.
* `transaction.atomic` is modelled in `submit_quiz`: when the atomic body
  returns an error, the pre-transaction state is kept (rollback).
* Python floats arising from `/` and the stored `percentage` are modelled
  as exact rationals `ℚ`.
-/

namespace Quizmaster

/-- JSON values as returned by `json.loads`. Numbers are restricted to
integers, which is all the submission payload uses. -/
inductive Json where
  | obj (fields : List (String × Json))
  | arr (elems : List Json)
  | str (s : String)
  | num (n : Int)
  | boolean (b : Bool)
  | null

/-- Python exceptions relevant to the submission pipeline. -/
inductive PyErr where
  | valueError
  | typeError
  | attributeError
  | http404
deriving Repr, DecidableEq

/-- Value of `cs` read as a decimal digit string, `none` when `cs` is empty
or holds a non-digit. -/
def digitsToNat? (cs : List Char) : Option Nat :=
  if cs.isEmpty then none
  else if cs.all Char.isDigit then
    some (cs.foldl (fun a c => a * 10 + (c.toNat - 48)) 0)
  else none

/-- Characters of a string with leading and trailing whitespace removed,
as Python `str.strip` does before `int` parses. -/
def stripChars (cs : List Char) : List Char :=
  ((cs.dropWhile Char.isWhitespace).reverse.dropWhile Char.isWhitespace).reverse

/-- Embedding of Python `int(s)` for a string argument: surrounding
whitespace and an optional sign are accepted, anything else raises
`ValueError` (`none` here). -/
def pyStrToInt? (s : String) : Option Int :=
  match stripChars s.data with
  | '-' :: rest => (digitsToNat? rest).map (fun n => -(n : Int))
  | '+' :: rest => (digitsToNat? rest).map (fun n => (n : Int))
  | cs => (digitsToNat? cs).map (fun n => (n : Int))

/-- Embedding of Python `int(x)` applied to a decoded JSON value:
integers pass through, strings are parsed (`ValueError` on failure),
booleans coerce, everything else raises `TypeError`. -/
def pyIntOfJson : Json → Except PyErr Int
  | .num n => .ok n
  | .str s =>
    match pyStrToInt? s with
    | some n => .ok n
    | none => .error .valueError
  | .boolean b => .ok (if b then 1 else 0)
  | _ => .error .typeError

/-- First value bound to `key` in a decoded JSON object's field list
(field lists stand for Python dicts, whose keys are unique). -/
def jsonGet (fields : List (String × Json)) (key : String) : Option Json :=
  (fields.find? (fun kv => kv.1 == key)).map (·.2)

/-- Quiz row: only the fields the submission pipeline reads. -/
structure Quiz where
  id : Int
  passing_marks : Int
deriving Repr, DecidableEq

/-- Question row: `quizId` is the owning quiz, `marks` the score value. -/
structure Question where
  id : Int
  quizId : Int
  marks : Int
deriving Repr, DecidableEq

/-- Option row of a question (named `QuizOption` because `Option` is taken
by Lean). -/
structure QuizOption where
  id : Int
  questionId : Int
  is_correct : Bool
deriving Repr, DecidableEq

/-- Attempt status: the `ATTEMPT_STATUS_*` constants. -/
inductive AttemptStatus where
  | in_progress
  | completed
deriving Repr, DecidableEq

/-- QuizAttempt row with the fields `finalize_attempt` writes. The
`percentage` column is nullable, hence `Option ℚ`. -/
structure Attempt where
  id : Int
  studentId : Int
  quizId : Int
  status : AttemptStatus
  score : Int
  max_score : Int
  total_marks : Int
  correct_answers : Int
  incorrect_answers : Int
  percentage : Option ℚ
  passed : Bool
  time_spent : Int
  end_time : Option Int
deriving Repr, DecidableEq

/-- StudentAnswer row. -/
structure StudentAnswer where
  attemptId : Int
  questionId : Int
  selectedOptionId : Int
  is_correct : Bool
deriving Repr, DecidableEq

/-- The read-only catalog tables the pipeline queries. -/
structure Database where
  quizzes : List Quiz
  questions : List Question
  options : List QuizOption
deriving Repr, DecidableEq

/-- Embedding of `Quiz.objects.get(id=quiz_id)` resolution used by
`get_object_or_404`. -/
def findQuiz (db : Database) (quizId : Int) : Option Quiz :=
  db.quizzes.find? (fun q => q.id == quizId)

/-- Embedding of `Question.objects.get(id=qid, quiz=quiz)`:
`none` stands for `Question.DoesNotExist`. -/
def getQuestion (db : Database) (qid : Int) (quizId : Int) : Option Question :=
  db.questions.find? (fun q => q.id == qid && q.quizId == quizId)

/-- Embedding of `Option.objects.get(id=oid, question=question)`:
`none` stands for `Option.DoesNotExist`. -/
def getOption (db : Database) (oid : Int) (questionId : Int) : Option QuizOption :=
  db.options.find? (fun o => o.id == oid && o.questionId == questionId)

/-- Result dict of `process_single_answer`. -/
structure AnswerResult where
  score : Int
  max_score : Int
  correct : Bool
deriving Repr, DecidableEq

/-- Embedding of the upsert
`StudentAnswer.objects.update_or_create(attempt=…, question=…, defaults=…)`:
if a row keyed by (attempt, question) exists it is overwritten in place,
otherwise the new row is appended. -/
def updateOrCreateAnswer (store : List StudentAnswer) (a : StudentAnswer) :
    List StudentAnswer :=
  if store.any (fun s => s.attemptId == a.attemptId && s.questionId == a.questionId) then
    store.map (fun s =>
      if s.attemptId == a.attemptId && s.questionId == a.questionId then a else s)
  else
    store ++ [a]

/-- Embedding of `process_single_answer`: parse the question id, resolve the
question within the quiz, parse the option id, resolve the option within the
question, upsert the StudentAnswer, and report score/max/correctness.
`none` stands for the exceptions `process_quiz_submission` catches and skips
(`ValueError`/`TypeError` from `int`, `DoesNotExist` from the lookups). -/
def process_single_answer (db : Database) (store : List StudentAnswer)
    (attemptId : Int) (quiz : Quiz) (question_id_str : String) (option_id : Json) :
    Option (AnswerResult × List StudentAnswer) :=
  match pyStrToInt? question_id_str with
  | none => none
  | some qid =>
    match getQuestion db qid quiz.id with
    | none => none
    | some question =>
      match pyIntOfJson option_id with
      | .error _ => none
      | .ok oid =>
        match getOption db oid question.id with
        | none => none
        | some selected_option =>
          let store' := updateOrCreateAnswer store
            { attemptId := attemptId
              questionId := question.id
              selectedOptionId := selected_option.id
              is_correct := selected_option.is_correct }
          some ({ score := if selected_option.is_correct then question.marks else 0
                  max_score := question.marks
                  correct := selected_option.is_correct }, store')

/-- Pure view of the validation part of `process_single_answer`: the
(question, option) pair an answer entry resolves to, `none` when the entry
is one of the skipped failure cases. The store is untouched by validation,
so this is a function of the catalog alone. -/
def resolveEntry (db : Database) (quiz : Quiz) (question_id_str : String)
    (option_id : Json) : Option (Question × QuizOption) :=
  match pyStrToInt? question_id_str with
  | none => none
  | some qid =>
    match getQuestion db qid quiz.id with
    | none => none
    | some question =>
      match pyIntOfJson option_id with
      | .error _ => none
      | .ok oid =>
        match getOption db oid question.id with
        | none => none
        | some selected_option => some (question, selected_option)

/-- Accumulator of the answers loop in `process_quiz_submission`:
`total_score`, `max_score`, `correct_count`, `incorrect_count`. -/
structure LoopAcc where
  total_score : Int
  max_score : Int
  correct_count : Int
  incorrect_count : Int
deriving Repr, DecidableEq

/-- One iteration of the answers loop: a skipped entry (caught exception)
leaves both accumulator and store unchanged. -/
def answersLoopStep (db : Database) (attemptId : Int) (quiz : Quiz)
    (st : LoopAcc × List StudentAnswer) (entry : String × Json) :
    LoopAcc × List StudentAnswer :=
  match process_single_answer db st.2 attemptId quiz entry.1 entry.2 with
  | none => st
  | some (result, store') =>
    ({ total_score := st.1.total_score + result.score
       max_score := st.1.max_score + result.max_score
       correct_count := st.1.correct_count + (if result.correct then 1 else 0)
       incorrect_count := st.1.incorrect_count + (if result.correct then 0 else 1) },
     store')

/-- The `for question_id_str, option_id in answers.items():` loop of
`process_quiz_submission`, starting from zeroed accumulators. -/
def answersLoop (db : Database) (attemptId : Int) (quiz : Quiz)
    (store : List StudentAnswer) (entries : List (String × Json)) :
    LoopAcc × List StudentAnswer :=
  entries.foldl (answersLoopStep db attemptId quiz)
    ({ total_score := 0, max_score := 0, correct_count := 0, incorrect_count := 0 }, store)

/-- Python `round(x, 2)` on an exact rational: round half to even at two
decimal places. -/
def pyRound2 (x : ℚ) : ℚ :=
  let y := x * 100
  let f : Int := Int.floor y
  let r := y - f
  let n : Int :=
    if r < 1/2 then f
    else if 1/2 < r then f + 1
    else if Even f then f else f + 1
  (n : ℚ) / 100

/-- Success payload of the submit endpoint
(`attempt_id`, `score`, `max_score`, `percentage`, `passed`). -/
structure SubmitOk where
  attempt_id : Int
  score : Int
  max_score : Int
  percentage : ℚ
  passed : Bool
deriving Repr, DecidableEq

/-- Embedding of `finalize_attempt`: set the aggregate fields, stamp
`end_time` with the current time, store `int(time_spent)` (whose
`ValueError`/`TypeError` propagates, hence `Except`), derive percentage and
pass verdict, mark the attempt completed, and build the response dict. -/
def finalize_attempt (attempt : Attempt) (quiz : Quiz)
    (total_score max_score correct_count incorrect_count : Int)
    (time_spent : Json) (now : Int) : Except PyErr (Attempt × SubmitOk) :=
  match pyIntOfJson time_spent with
  | .error e => .error e
  | .ok ts =>
    let pct : ℚ :=
      if max_score > 0 then ((total_score : ℚ) / (max_score : ℚ)) * 100 else 0
    let didPass : Bool :=
      if max_score > 0 then decide (total_score ≥ quiz.passing_marks) else false
    let attempt' : Attempt :=
      { attempt with
        score := total_score
        max_score := max_score
        total_marks := max_score
        correct_answers := correct_count
        incorrect_answers := incorrect_count
        end_time := some now
        time_spent := ts
        percentage := some pct
        passed := didPass
        status := .completed }
    .ok (attempt',
      { attempt_id := attempt.id
        score := total_score
        max_score := max_score
        percentage := pyRound2 pct
        passed := didPass })

/-- Parsed submission payload: the raw `answers` and `time_spent` values
(each may be any JSON value at this point). -/
structure SubmissionData where
  answers : Json
  time_spent : Json

/-- Embedding of `parse_submission_data`: an undecodable body
(`JSONDecodeError`) yields `none` (the function returns Python `None`);
a decoded non-object raises `AttributeError` at `data.get`; a decoded
object yields the payload with defaults `{}` and `0`. -/
def parse_submission_data (body : Option Json) :
    Except PyErr (Option SubmissionData) :=
  match body with
  | none => .ok none
  | some (.obj fields) =>
    .ok (some
      { answers := (jsonGet fields "answers").getD (.obj [])
        time_spent := (jsonGet fields "time_spent").getD (.num 0) })
  | some _ => .error .attributeError

/-- Embedding of `get_quiz_attempt`: first attempt of this student on this
quiz whose status is `in_progress`. -/
def get_quiz_attempt (attempts : List Attempt) (userId quizId : Int) :
    Option Attempt :=
  (attempts.filter (fun a =>
    a.studentId == userId && a.quizId == quizId
      && a.status == AttemptStatus.in_progress)).head?

/-- Embedding of `attempt.save()` on an already-existing row: replace the
row with the same primary key. -/
def saveAttempt (attempts : List Attempt) (attempt' : Attempt) : List Attempt :=
  attempts.map (fun a => if a.id == attempt'.id then attempt' else a)

/-- Embedding of `process_quiz_submission`, the body of
`transaction.atomic`: iterate the answers mapping (a non-mapping `answers`
raises `TypeError`/`AttributeError` at `len`/`.items`), then finalize.
Errors escaping this function abort the transaction. -/
def process_quiz_submission (db : Database) (attempt : Attempt) (quiz : Quiz)
    (data : SubmissionData) (store : List StudentAnswer) (now : Int) :
    Except PyErr (SubmitOk × Attempt × List StudentAnswer) :=
  match data.answers with
  | .obj entries =>
    let res := answersLoop db attempt.id quiz store entries
    (finalize_attempt attempt quiz res.1.total_score res.1.max_score
        res.1.correct_count res.1.incorrect_count data.time_spent now).map
      (fun r => (r.2, r.1, res.2))
  | _ => .error .typeError

/-- JSON responses of the submit endpoint. `invalidRequest` is the 400
`'Invalid request'` body, `attemptNotFound` the 400
`'Quiz attempt not found'` body, `internalError` the 500
`'An error occurred: …'` body of the outer `except`; all three carry
`success: false` and an `error` message. -/
inductive SubmitResponse where
  | ok (payload : SubmitOk)
  | invalidRequest
  | attemptNotFound
  | internalError (e : PyErr)
deriving Repr, DecidableEq

/-- Whether a response is a failure body `{success: false, error: …}`. -/
def SubmitResponse.isFailure : SubmitResponse → Bool
  | .ok _ => false
  | _ => true

/-- Embedding of the `submit_quiz` view: parse, look up quiz and attempt,
run the grading transaction. Raised exceptions reach the outer `except`,
which answers with a failure body; the transaction's state changes are then
rolled back, so the original `store` and `attempts` are returned. -/
def submit_quiz (db : Database) (store : List StudentAnswer)
    (attempts : List Attempt) (userId quizId : Int) (body : Option Json)
    (now : Int) : SubmitResponse × List StudentAnswer × List Attempt :=
  match parse_submission_data body with
  | .error e => (.internalError e, store, attempts)
  | .ok none => (.invalidRequest, store, attempts)
  | .ok (some data) =>
    match findQuiz db quizId with
    | none => (.internalError .http404, store, attempts)
    | some quiz =>
      match get_quiz_attempt attempts userId quizId with
      | none => (.attemptNotFound, store, attempts)
      | some attempt =>
        match process_quiz_submission db attempt quiz data store now with
        | .ok (resp, attempt', store') =>
          (.ok resp, store', saveAttempt attempts attempt')
        | .error e => (.internalError e, store, attempts)

/-- One entry of the `grade_ranges` list: label, running count, and the
inclusive integer bounds. -/
structure GradeRange where
  label : String
  count : Nat
  lo : Int
  hi : Int
deriving Repr, DecidableEq

/-- The fixed `grade_ranges` table shared by all three distribution
functions. -/
def gradeRangesInit : List GradeRange :=
  [ { label := "90-100", count := 0, lo := 90, hi := 100 },
    { label := "80-89", count := 0, lo := 80, hi := 89 },
    { label := "70-79", count := 0, lo := 70, hi := 79 },
    { label := "60-69", count := 0, lo := 60, hi := 69 },
    { label := "50-59", count := 0, lo := 50, hi := 59 },
    { label := "0-49", count := 0, lo := 0, hi := 49 } ]

/-- Inner `for grade_range in grade_ranges: … break` loop: increment the
first range containing `p` (inclusive bounds on both sides), leave the rest
untouched. -/
def addToFirstMatch : List GradeRange → ℚ → List GradeRange
  | [], _ => []
  | r :: rs, p =>
    if (r.lo : ℚ) ≤ p ∧ p ≤ (r.hi : ℚ) then
      { r with count := r.count + 1 } :: rs
    else
      r :: addToFirstMatch rs p

/-- Outer loop over the percentage column: `None` percentages are skipped. -/
def tallyPercentages (percentages : List (Option ℚ)) : List GradeRange :=
  percentages.foldl
    (fun ranges pOpt =>
      match pOpt with
      | none => ranges
      | some p => addToFirstMatch ranges p)
    gradeRangesInit

/-- Embedding of `calculate_grade_distribution` applied to the percentage
column of a teacher's completed attempts. -/
def calculate_grade_distribution (percentages : List (Option ℚ)) :
    List (String × Nat) :=
  (tallyPercentages percentages).map (fun r => (r.label, r.count))

/-- Embedding of `calculate_student_grade_distribution` applied to the
percentage column of one student's completed attempts; its body is a
verbatim copy of `calculate_grade_distribution`'s. -/
def calculate_student_grade_distribution (percentages : List (Option ℚ)) :
    List (String × Nat) :=
  (tallyPercentages percentages).map (fun r => (r.label, r.count))

/-- Embedding of `calculate_quiz_specific_grade_distribution` applied to
the percentage column of one quiz's completed attempts; its body is a
verbatim copy of `calculate_grade_distribution`'s. -/
def calculate_quiz_specific_grade_distribution (percentages : List (Option ℚ)) :
    List (String × Nat) :=
  (tallyPercentages percentages).map (fun r => (r.label, r.count))

/-- Total number of bucket placements a distribution records. -/
def totalCount (dist : List (String × Nat)) : Nat :=
  (dist.map (fun e => e.2)).sum

/-- Membership of `p` in at least one of the six closed buckets. -/
def inSomeBucket (p : ℚ) : Prop :=
  (90 ≤ p ∧ p ≤ 100) ∨ (80 ≤ p ∧ p ≤ 89) ∨ (70 ≤ p ∧ p ≤ 79)
    ∨ (60 ≤ p ∧ p ≤ 69) ∨ (50 ≤ p ∧ p ≤ 59) ∨ (0 ≤ p ∧ p ≤ 49)

instance (p : ℚ) : Decidable (inSomeBucket p) := by
  unfold inSomeBucket
  infer_instance

/-- Helper: the summed score and max-score contributions of a list of
entries, counting only entries that resolve. -/
def resolvedMarksSum (db : Database) (quiz : Quiz)
    (entries : List (String × Json)) : Int :=
  (entries.filterMap (fun e =>
    (resolveEntry db quiz e.1 e.2).map (fun r => r.1.marks))).sum

/-- Helper: the summed total-score contributions of the resolving entries
(full marks when the selected option is correct, zero otherwise). -/
def resolvedScoreSum (db : Database) (quiz : Quiz)
    (entries : List (String × Json)) : Int :=
  (entries.filterMap (fun e =>
    (resolveEntry db quiz e.1 e.2).map (fun r =>
      if r.2.is_correct then r.1.marks else 0))).sum

/-- Number of StudentAnswer rows stored for one (attempt, question) key. -/
def answerCountFor (store : List StudentAnswer) (aid qid : Int) : Nat :=
  (store.filter (fun s => s.attemptId == aid && s.questionId == qid)).length

/-- First StudentAnswer row stored for one (attempt, question) key. -/
def lookupAnswer (store : List StudentAnswer) (aid qid : Int) :
    Option StudentAnswer :=
  store.find? (fun s => s.attemptId == aid && s.questionId == qid)

/-- The StudentAnswer-table invariant: at most one row per
(attempt, question) key. -/
def atMostOnePerKey (store : List StudentAnswer) : Prop :=
  ∀ aid qid : Int, answerCountFor store aid qid ≤ 1

/-- Witness fixture: a quiz with passing_marks 100. -/
def quiz0 : Quiz := { id := 1, passing_marks := 100 }

/-- Witness fixture: an in-progress attempt of student 1 on quiz 1. -/
def attempt0 : Attempt :=
  { id := 1, studentId := 1, quizId := 1, status := .in_progress, score := 0,
    max_score := 0, total_marks := 0, correct_answers := 0,
    incorrect_answers := 0, percentage := none, passed := false,
    time_spent := 0, end_time := none }

/-- Witness fixture: a catalog with one quiz, two questions worth 5 marks,
and two options each (the first of each pair correct). -/
def db0 : Database :=
  { quizzes := [quiz0]
    questions := [{ id := 1, quizId := 1, marks := 5 },
                  { id := 2, quizId := 1, marks := 5 }]
    options := [{ id := 11, questionId := 1, is_correct := true },
                { id := 12, questionId := 1, is_correct := false },
                { id := 21, questionId := 2, is_correct := true },
                { id := 22, questionId := 2, is_correct := false }] }

/-- Witness helper: the pair `finalize_attempt` returns on `attempt0` and
`quiz0`, defaulting to a dummy on error. -/
def finalizeResultOn (tot ms cc ic : Int) (ts : Json) (now : Int) :
    Attempt × SubmitOk :=
  (finalize_attempt attempt0 quiz0 tot ms cc ic ts now).toOption.getD
    (attempt0,
      { attempt_id := 0, score := 0, max_score := 0, percentage := 0,
        passed := false })

/-- The attempt record `finalize_attempt` produces for an empty submission
(zero accumulators, `time_spent = 0`). -/
def finalizedEmpty (attempt : Attempt) (now : Int) : Attempt :=
  { attempt with
    score := 0
    max_score := 0
    total_marks := 0
    correct_answers := 0
    incorrect_answers := 0
    end_time := some now
    time_spent := 0
    percentage := some 0
    passed := false
    status := .completed }

/-- Witness fixture: a request body whose answers entry is valid but whose
`time_spent` is the unparsable string "abc". -/
def body7 : Option Json :=
  some (.obj [("answers", .obj [("1", Json.str "11")]),
              ("time_spent", Json.str "abc")])

/-- Witness fixture: the parsed payload of `body7`. -/
def data7 : SubmissionData :=
  { answers := .obj [("1", Json.str "11")], time_spent := Json.str "abc" }

/-- C1: for every finalized attempt, when the accumulated `max_score` is
positive the stored percentage is exactly `(total_score / max_score) * 100`
and `passed` is exactly `total_score >= quiz.passing_marks`; when
`max_score` is zero the stored percentage is `0` and `passed` is `false`. -/
theorem finalize_attempt_percentage_passed
    (attempt : Attempt) (quiz : Quiz) (tot ms cc ic : Int) (ts : Json)
    (now : Int) (attempt' : Attempt) (resp : SubmitOk)
    (h : finalize_attempt attempt quiz tot ms cc ic ts now = .ok (attempt', resp)) :
    (0 < ms →
      attempt'.percentage = some (((tot : ℚ) / (ms : ℚ)) * 100)
        ∧ attempt'.passed = decide (tot ≥ quiz.passing_marks))
    ∧ (ms = 0 → attempt'.percentage = some 0 ∧ attempt'.passed = false) := by
  unfold finalize_attempt at h
  cases hts : pyIntOfJson ts with
  | error e => rw [hts] at h; exact absurd h (by simp)
  | ok n =>
    rw [hts] at h
    simp only [Except.ok.injEq, Prod.mk.injEq] at h
    obtain ⟨h1, -⟩ := h
    subst h1
    refine ⟨fun hm => ?_, fun hm => ?_⟩
    · simp [hm]
    · simp [hm]

/-- Witness for C1 at `tot = 179`, `ms = 200`. -/
theorem finalize_attempt_percentage_passed_witness :
    finalize_attempt attempt0 quiz0 179 200 2 0 (Json.num 0) 5
        = .ok ((finalizeResultOn 179 200 2 0 (Json.num 0) 5).1,
               (finalizeResultOn 179 200 2 0 (Json.num 0) 5).2)
    ∧ ((0 < (200 : Int) →
        (finalizeResultOn 179 200 2 0 (Json.num 0) 5).1.percentage
            = some ((((179 : Int) : ℚ) / ((200 : Int) : ℚ)) * 100)
          ∧ (finalizeResultOn 179 200 2 0 (Json.num 0) 5).1.passed
            = decide ((179 : Int) ≥ quiz0.passing_marks))
      ∧ ((200 : Int) = 0 →
        (finalizeResultOn 179 200 2 0 (Json.num 0) 5).1.percentage = some 0
          ∧ (finalizeResultOn 179 200 2 0 (Json.num 0) 5).1.passed = false)) :=
  ⟨rfl,
   finalize_attempt_percentage_passed attempt0 quiz0 179 200 2 0 (Json.num 0) 5
     (finalizeResultOn 179 200 2 0 (Json.num 0) 5).1
     (finalizeResultOn 179 200 2 0 (Json.num 0) 5).2 rfl⟩

/-- C8 counterexample: a client-reported `time_spent` of `-5` is stored
as `-5`, a negative value, refuting the claim that the persisted
`time_spent` is non-negative regardless of the client-reported value. -/
theorem finalize_attempt_negative_time_counterexample :
    (finalize_attempt attempt0 quiz0 0 0 0 0 (Json.num (-5)) 5).toOption.map
        (fun r => r.1.time_spent) = some (-5)
    ∧ ((-5 : Int) < 0) := by
  exact ⟨rfl, by decide⟩

/-- C8 amended: the finalizer transitions the attempt to completed, stamps
`end_time` with the current time, and stores `time_spent` as Python
`int(time_spent)` — an integer, but with no clamping, so a negative
client-reported duration is persisted negative. -/
theorem finalize_attempt_time_spent_amended
    (attempt : Attempt) (quiz : Quiz) (tot ms cc ic : Int) (ts : Json)
    (now : Int) (attempt' : Attempt) (resp : SubmitOk) (n : Int)
    (h : finalize_attempt attempt quiz tot ms cc ic ts now = .ok (attempt', resp))
    (hn : pyIntOfJson ts = .ok n) :
    attempt'.status = .completed ∧ attempt'.end_time = some now
      ∧ attempt'.time_spent = n := by
  unfold finalize_attempt at h
  rw [hn] at h
  simp only [Except.ok.injEq, Prod.mk.injEq] at h
  obtain ⟨h1, -⟩ := h
  subst h1
  exact ⟨rfl, rfl, rfl⟩

/-- Witness for the amended C8 at `time_spent = -5`. -/
theorem finalize_attempt_time_spent_amended_witness :
    finalize_attempt attempt0 quiz0 0 0 0 0 (Json.num (-5)) 7
        = .ok ((finalizeResultOn 0 0 0 0 (Json.num (-5)) 7).1,
               (finalizeResultOn 0 0 0 0 (Json.num (-5)) 7).2)
    ∧ pyIntOfJson (Json.num (-5)) = .ok (-5)
    ∧ ((finalizeResultOn 0 0 0 0 (Json.num (-5)) 7).1.status = .completed
      ∧ (finalizeResultOn 0 0 0 0 (Json.num (-5)) 7).1.end_time = some 7
      ∧ (finalizeResultOn 0 0 0 0 (Json.num (-5)) 7).1.time_spent = -5) :=
  ⟨rfl, rfl,
   finalize_attempt_time_spent_amended attempt0 quiz0 0 0 0 0 (Json.num (-5)) 7
     (finalizeResultOn 0 0 0 0 (Json.num (-5)) 7).1
     (finalizeResultOn 0 0 0 0 (Json.num (-5)) 7).2 (-5) rfl rfl⟩

/-- C3 counterexample: the percentage `89.5` is produced by a finalized
(completed) attempt scoring 179 of 200, yet the grade-distribution
computation places it in zero buckets, not exactly one: every bucket has
integer bounds and `89 < 89.5 < 90`. -/
theorem grade_distribution_gap_counterexample :
    (finalize_attempt attempt0 quiz0 179 200 2 0 (Json.num 0) 5).toOption.map
        (fun r => (r.1.percentage, r.1.status))
      = some (some ((179 : ℚ) / 2), .completed)
    ∧ totalCount (calculate_grade_distribution [some ((179 : ℚ) / 2)]) = 0 := by
  constructor
  · show some (some ((179 : ℚ) / 200 * 100), AttemptStatus.completed) = _
    norm_num
  · norm_num [calculate_grade_distribution, tallyPercentages, gradeRangesInit,
      addToFirstMatch, totalCount]

/-- C3 amended: a percentage is placed in at most one bucket — in exactly
one precisely when it lies in one of the six closed integer ranges, and in
none when it falls in a gap such as `(89, 90)` or outside `[0, 100]`; the
boundary values 90, 80, 70, 60, 50 land in the higher-labeled bucket; null
percentages are excluded from counting. -/
theorem grade_distribution_buckets_amended :
    (∀ p : ℚ, totalCount (calculate_grade_distribution [some p])
        = if inSomeBucket p then 1 else 0)
    ∧ calculate_grade_distribution [some 90]
        = [("90-100", 1), ("80-89", 0), ("70-79", 0), ("60-69", 0),
           ("50-59", 0), ("0-49", 0)]
    ∧ calculate_grade_distribution [some 80]
        = [("90-100", 0), ("80-89", 1), ("70-79", 0), ("60-69", 0),
           ("50-59", 0), ("0-49", 0)]
    ∧ calculate_grade_distribution [some 70]
        = [("90-100", 0), ("80-89", 0), ("70-79", 1), ("60-69", 0),
           ("50-59", 0), ("0-49", 0)]
    ∧ calculate_grade_distribution [some 60]
        = [("90-100", 0), ("80-89", 0), ("70-79", 0), ("60-69", 1),
           ("50-59", 0), ("0-49", 0)]
    ∧ calculate_grade_distribution [some 50]
        = [("90-100", 0), ("80-89", 0), ("70-79", 0), ("60-69", 0),
           ("50-59", 1), ("0-49", 0)]
    ∧ (∀ ps : List (Option ℚ),
        calculate_grade_distribution (none :: ps)
          = calculate_grade_distribution ps) := by
  have evalTac : ∀ q : ℚ, calculate_grade_distribution [some q]
      = (addToFirstMatch gradeRangesInit q).map (fun r => (r.label, r.count)) :=
    fun q => rfl
  refine ⟨?_,
    by rw [evalTac]; norm_num [gradeRangesInit, addToFirstMatch],
    by rw [evalTac]; norm_num [gradeRangesInit, addToFirstMatch],
    by rw [evalTac]; norm_num [gradeRangesInit, addToFirstMatch],
    by rw [evalTac]; norm_num [gradeRangesInit, addToFirstMatch],
    by rw [evalTac]; norm_num [gradeRangesInit, addToFirstMatch],
    fun ps => rfl⟩
  intro p
  simp only [calculate_grade_distribution, tallyPercentages, List.foldl_cons,
    List.foldl_nil]
  simp only [gradeRangesInit, addToFirstMatch]
  split_ifs
  all_goals simp only [totalCount, List.map_cons, List.map_nil, List.sum_cons,
    List.sum_nil]
  any_goals rfl
  all_goals (exfalso; simp only [inSomeBucket] at *; push_cast at *; itauto)

/-- C9: the three grade-distribution call sites (teacher-wide,
student-wide, quiz-specific) compute identical results on any percentage
collection. -/
theorem grade_distribution_call_sites_agree (ps : List (Option ℚ)) :
    calculate_grade_distribution ps = calculate_student_grade_distribution ps
    ∧ calculate_grade_distribution ps
        = calculate_quiz_specific_grade_distribution ps :=
  ⟨rfl, rfl⟩

/-- Helper: `process_single_answer` succeeds exactly when the entry
resolves, and then reports the resolved question's marks and option's
correctness while upserting the corresponding StudentAnswer. -/
theorem process_single_answer_eq_resolve (db : Database)
    (store : List StudentAnswer) (attemptId : Int) (quiz : Quiz)
    (k : String) (v : Json) :
    process_single_answer db store attemptId quiz k v
      = (resolveEntry db quiz k v).map (fun r =>
          ({ score := if r.2.is_correct then r.1.marks else 0
             max_score := r.1.marks
             correct := r.2.is_correct },
           updateOrCreateAnswer store
             { attemptId := attemptId, questionId := r.1.id,
               selectedOptionId := r.2.id, is_correct := r.2.is_correct })) := by
  unfold process_single_answer resolveEntry
  cases h1 : pyStrToInt? k with
  | none => rfl
  | some qid =>
    dsimp only
    cases h2 : getQuestion db qid quiz.id with
    | none => rfl
    | some question =>
      dsimp only
      cases h3 : pyIntOfJson v with
      | error e => rfl
      | ok oid =>
        dsimp only
        cases h4 : getOption db oid question.id with
        | none => rfl
        | some selected_option => rfl

/-- Helper: a loop step on an unresolvable entry is the identity. -/
theorem answersLoopStep_skip (db : Database) (attemptId : Int) (quiz : Quiz)
    (st : LoopAcc × List StudentAnswer) (k : String) (v : Json)
    (h : resolveEntry db quiz k v = none) :
    answersLoopStep db attemptId quiz st (k, v) = st := by
  unfold answersLoopStep
  rw [process_single_answer_eq_resolve, h]
  rfl

/-- Helper: a loop step on a resolvable entry adds the marks and upserts. -/
theorem answersLoopStep_hit (db : Database) (attemptId : Int) (quiz : Quiz)
    (st : LoopAcc × List StudentAnswer) (k : String) (v : Json)
    (q : Question) (o : QuizOption)
    (h : resolveEntry db quiz k v = some (q, o)) :
    answersLoopStep db attemptId quiz st (k, v)
      = ({ total_score := st.1.total_score + (if o.is_correct then q.marks else 0)
           max_score := st.1.max_score + q.marks
           correct_count := st.1.correct_count + (if o.is_correct then 1 else 0)
           incorrect_count := st.1.incorrect_count + (if o.is_correct then 0 else 1) },
         updateOrCreateAnswer st.2
           { attemptId := attemptId, questionId := q.id,
             selectedOptionId := o.id, is_correct := o.is_correct }) := by
  unfold answersLoopStep
  rw [process_single_answer_eq_resolve, h]
  rfl

/-- Helper: generalized loop invariant relating the accumulators to the
per-entry sums over any starting accumulator. -/
theorem answersLoop_foldl_sums (db : Database) (attemptId : Int) (quiz : Quiz)
    (entries : List (String × Json)) :
    ∀ acc : LoopAcc, ∀ store : List StudentAnswer,
      (entries.foldl (answersLoopStep db attemptId quiz) (acc, store)).1.max_score
          = acc.max_score + resolvedMarksSum db quiz entries
      ∧ (entries.foldl (answersLoopStep db attemptId quiz) (acc, store)).1.total_score
          = acc.total_score + resolvedScoreSum db quiz entries := by
  induction entries with
  | nil =>
    intro acc store
    simp [resolvedMarksSum, resolvedScoreSum]
  | cons e rest ih =>
    intro acc store
    obtain ⟨k, v⟩ := e
    cases hr : resolveEntry db quiz k v with
    | none =>
      rw [List.foldl_cons, answersLoopStep_skip db attemptId quiz (acc, store) k v hr]
      have hms : resolvedMarksSum db quiz ((k, v) :: rest)
          = resolvedMarksSum db quiz rest := by
        simp [resolvedMarksSum, hr]
      have hts : resolvedScoreSum db quiz ((k, v) :: rest)
          = resolvedScoreSum db quiz rest := by
        simp [resolvedScoreSum, hr]
      rw [hms, hts]
      exact ih acc store
    | some r =>
      obtain ⟨q, o⟩ := r
      rw [List.foldl_cons, answersLoopStep_hit db attemptId quiz (acc, store) k v q o hr]
      have hms : resolvedMarksSum db quiz ((k, v) :: rest)
          = q.marks + resolvedMarksSum db quiz rest := by
        simp [resolvedMarksSum, hr]
      have hts : resolvedScoreSum db quiz ((k, v) :: rest)
          = (if o.is_correct then q.marks else 0) + resolvedScoreSum db quiz rest := by
        simp [resolvedScoreSum, hr]
      rw [hms, hts]
      obtain ⟨ih1, ih2⟩ := ih
        { total_score := acc.total_score + (if o.is_correct then q.marks else 0)
          max_score := acc.max_score + q.marks
          correct_count := acc.correct_count + (if o.is_correct then 1 else 0)
          incorrect_count := acc.incorrect_count + (if o.is_correct then 0 else 1) }
        (updateOrCreateAnswer store
          { attemptId := attemptId, questionId := q.id,
            selectedOptionId := o.id, is_correct := o.is_correct })
      rw [ih1, ih2]
      constructor
      · show acc.max_score + q.marks + _ = _
        ring
      · show acc.total_score + (if o.is_correct then q.marks else 0) + _ = _
        ring

/-- C2: the accumulated `max_score` of a submission is the sum of `marks`
over exactly the entries that validated and graded successfully (answered
questions), and the accumulated `total_score` is the sum of their score
contributions; entries with no valid resolution contribute to neither. -/
theorem submission_max_score_answered_only (db : Database) (attemptId : Int)
    (quiz : Quiz) (store : List StudentAnswer)
    (entries : List (String × Json)) :
    (answersLoop db attemptId quiz store entries).1.max_score
        = resolvedMarksSum db quiz entries
    ∧ (answersLoop db attemptId quiz store entries).1.total_score
        = resolvedScoreSum db quiz entries := by
  obtain ⟨h1, h2⟩ := answersLoop_foldl_sums db attemptId quiz entries
    { total_score := 0, max_score := 0, correct_count := 0, incorrect_count := 0 }
    store
  unfold answersLoop
  rw [h1, h2]
  constructor <;> ring

/-- C5: an answer entry that fails to validate (non-integer identifiers,
or a question/option that does not exist or belongs elsewhere) is skipped
individually — removing it from the payload changes neither accumulators
nor the answer store — and a submission containing it still completes
successfully. -/
theorem invalid_entry_skipped (db : Database) (attemptId : Int) (quiz : Quiz)
    (store : List StudentAnswer) (k : String) (v : Json)
    (h : resolveEntry db quiz k v = none) :
    (∀ pre post : List (String × Json),
      answersLoop db attemptId quiz store (pre ++ (k, v) :: post)
        = answersLoop db attemptId quiz store (pre ++ post))
    ∧ (∀ attempt : Attempt, ∀ entries : List (String × Json), ∀ tsec now : Int,
        ∃ r, process_quiz_submission db attempt quiz
            ⟨Json.obj entries, Json.num tsec⟩ store now = .ok r) := by
  constructor
  · intro pre post
    unfold answersLoop
    rw [List.foldl_append, List.foldl_cons, List.foldl_append,
      answersLoopStep_skip db attemptId quiz _ k v h]
  · intro attempt entries tsec now
    exact ⟨_, rfl⟩

/-- Witness for C5: entry "999" references a question absent from the
catalog; dropping it leaves the loop state unchanged and the submission
still succeeds. -/
theorem invalid_entry_skipped_witness :
    resolveEntry db0 quiz0 "999" (Json.str "11") = none
    ∧ answersLoop db0 7 quiz0 []
          ([("1", Json.str "11")] ++ ("999", Json.str "11") :: [])
        = answersLoop db0 7 quiz0 [] ([("1", Json.str "11")] ++ [])
    ∧ ∃ r, process_quiz_submission db0 attempt0 quiz0
        ⟨Json.obj [("999", Json.str "11")], Json.num 3⟩ [] 9 = .ok r :=
  ⟨by rfl,
   (invalid_entry_skipped db0 7 quiz0 [] "999" (Json.str "11") (by rfl)).1
     [("1", Json.str "11")] [],
   (invalid_entry_skipped db0 7 quiz0 [] "999" (Json.str "11") (by rfl)).2
     attempt0 [("999", Json.str "11")] 3 9⟩

/-- Helper: the upserted row's key always matches its own lookup predicate. -/
theorem key_self (a : StudentAnswer) :
    (a.attemptId == a.attemptId && a.questionId == a.questionId) = true := by
  simp

/-- Helper: after mapping the overwrite function over a store containing a
match, the first row found for the upserted key is the new row. -/
theorem find_map_key (a : StudentAnswer) :
    ∀ store : List StudentAnswer,
      store.any (fun s => s.attemptId == a.attemptId
          && s.questionId == a.questionId) = true →
      (store.map (fun s =>
          if s.attemptId == a.attemptId && s.questionId == a.questionId
          then a else s)).find?
          (fun s => s.attemptId == a.attemptId && s.questionId == a.questionId)
        = some a := by
  intro store
  induction store with
  | nil => intro h; cases h
  | cons s t ih =>
    intro h
    by_cases hk : (s.attemptId == a.attemptId && s.questionId == a.questionId) = true
    · rw [List.map_cons, if_pos hk]
      exact List.find?_cons_of_pos _ (key_self a)
    · have hk' : (s.attemptId == a.attemptId && s.questionId == a.questionId) = false :=
        Bool.eq_false_iff.mpr hk
      have ht : t.any (fun s => s.attemptId == a.attemptId
          && s.questionId == a.questionId) = true := by
        simpa [List.any_cons, hk'] using h
      rw [List.map_cons, if_neg hk, List.find?_cons_of_neg _ (by simp [hk'])]
      exact ih ht

/-- Helper: appending the new row to a store with no match makes it the
first row found for its key. -/
theorem find_append_key (a : StudentAnswer) :
    ∀ store : List StudentAnswer,
      store.any (fun s => s.attemptId == a.attemptId
          && s.questionId == a.questionId) = false →
      (store ++ [a]).find?
          (fun s => s.attemptId == a.attemptId && s.questionId == a.questionId)
        = some a := by
  intro store
  induction store with
  | nil =>
    intro h
    rw [List.nil_append]
    exact List.find?_cons_of_pos _ (key_self a)
  | cons s t ih =>
    intro h
    have hk : (s.attemptId == a.attemptId && s.questionId == a.questionId) = false := by
      by_contra hc
      simp only [Bool.not_eq_false] at hc
      simp [List.any_cons, hc] at h
    have ht : t.any (fun s => s.attemptId == a.attemptId
        && s.questionId == a.questionId) = false := by
      simpa [List.any_cons, hk] using h
    rw [List.cons_append, List.find?_cons_of_neg _ (by simp [hk])]
    exact ih ht

/-- Helper: the (attempt, question) upsert keeps the first row found for the
upserted key equal to the new row — re-submission overwrites. -/
theorem lookupAnswer_upsert (store : List StudentAnswer) (a : StudentAnswer) :
    lookupAnswer (updateOrCreateAnswer store a) a.attemptId a.questionId
      = some a := by
  unfold lookupAnswer updateOrCreateAnswer
  by_cases hany : store.any (fun s => s.attemptId == a.attemptId
      && s.questionId == a.questionId) = true
  · rw [if_pos hany]
    exact find_map_key a store hany
  · have hf : store.any (fun s => s.attemptId == a.attemptId
        && s.questionId == a.questionId) = false := Bool.eq_false_iff.mpr hany
    rw [hf]
    simp only [Bool.false_eq_true, if_false]
    exact find_append_key a store hf

/-- Helper: overwriting rows keyed like `a` with `a` itself does not change
how many rows match any fixed (attempt, question) key. -/
theorem count_map_eq (a : StudentAnswer) (aid qid : Int) :
    ∀ store : List StudentAnswer,
      answerCountFor (store.map (fun s =>
          if s.attemptId == a.attemptId && s.questionId == a.questionId
          then a else s)) aid qid
        = answerCountFor store aid qid := by
  have hpt : ∀ s : StudentAnswer,
      (((if s.attemptId == a.attemptId && s.questionId == a.questionId
          then a else s).attemptId == aid)
        && ((if s.attemptId == a.attemptId && s.questionId == a.questionId
            then a else s).questionId == qid))
      = (s.attemptId == aid && s.questionId == qid) := by
    intro s
    by_cases hk : (s.attemptId == a.attemptId && s.questionId == a.questionId) = true
    · have hk2 := hk
      simp only [Bool.and_eq_true, beq_iff_eq] at hk2
      obtain ⟨h1, h2⟩ := hk2
      rw [if_pos hk, h1, h2]
    · rw [if_neg hk]
  intro store
  induction store with
  | nil => rfl
  | cons s t ih =>
    unfold answerCountFor
    simp only [List.map_cons, List.filter_cons, hpt s]
    by_cases hp : (s.attemptId == aid && s.questionId == qid) = true
    · simp only [hp, if_true, List.length_cons]
      unfold answerCountFor at ih
      rw [ih]
    · simp only [Bool.eq_false_iff.mpr hp, Bool.false_eq_true, if_false]
      unfold answerCountFor at ih
      rw [ih]

/-- Helper: row counts distribute over appending the single new row. -/
theorem count_append_single (a : StudentAnswer) (aid qid : Int)
    (store : List StudentAnswer) :
    answerCountFor (store ++ [a]) aid qid
      = answerCountFor store aid qid + answerCountFor [a] aid qid := by
  unfold answerCountFor
  rw [List.filter_append, List.length_append]

/-- Helper: the upsert preserves the at-most-one-row-per-key invariant. -/
theorem atMostOnePerKey_upsert (store : List StudentAnswer) (a : StudentAnswer)
    (h : atMostOnePerKey store) :
    atMostOnePerKey (updateOrCreateAnswer store a) := by
  intro aid qid
  unfold updateOrCreateAnswer
  by_cases hany : store.any (fun s => s.attemptId == a.attemptId
      && s.questionId == a.questionId) = true
  · rw [if_pos hany, count_map_eq]
    exact h aid qid
  · have hf : store.any (fun s => s.attemptId == a.attemptId
        && s.questionId == a.questionId) = false := Bool.eq_false_iff.mpr hany
    rw [hf]
    simp only [Bool.false_eq_true, if_false]
    rw [count_append_single]
    by_cases hp : (a.attemptId == aid && a.questionId == qid) = true
    · have h1 : answerCountFor [a] aid qid = 1 := by
        unfold answerCountFor
        simp [List.filter_cons, hp]
      have h0 : answerCountFor store aid qid = 0 := by
        unfold answerCountFor
        rw [List.length_eq_zero, List.filter_eq_nil_iff]
        intro s hs
        have hp2 := hp
        simp only [Bool.and_eq_true, beq_iff_eq] at hp2
        obtain ⟨ha1, ha2⟩ := hp2
        have hsf : ¬(s.attemptId == a.attemptId
            && s.questionId == a.questionId) = true :=
          (List.any_eq_false.mp hf) s hs
        intro hc
        simp only [Bool.and_eq_true, beq_iff_eq] at hc
        obtain ⟨hc1, hc2⟩ := hc
        exact hsf (by simp [hc1, ha1, hc2, ha2])
      omega
    · have h1 : answerCountFor [a] aid qid = 0 := by
        unfold answerCountFor
        simp [List.filter_cons, Bool.eq_false_iff.mpr hp]
      have := h aid qid
      omega

/-- Helper: the answers loop preserves the at-most-one-row-per-key
invariant from any starting accumulator. -/
theorem atMostOnePerKey_loop (db : Database) (attemptId : Int) (quiz : Quiz) :
    ∀ entries : List (String × Json), ∀ acc : LoopAcc,
      ∀ store : List StudentAnswer, atMostOnePerKey store →
      atMostOnePerKey
        (entries.foldl (answersLoopStep db attemptId quiz) (acc, store)).2 := by
  intro entries
  induction entries with
  | nil => intro acc store h; exact h
  | cons e rest ih =>
    intro acc store h
    obtain ⟨k, v⟩ := e
    cases hr : resolveEntry db quiz k v with
    | none =>
      rw [List.foldl_cons, answersLoopStep_skip db attemptId quiz (acc, store) k v hr]
      exact ih acc store h
    | some r =>
      obtain ⟨q, o⟩ := r
      rw [List.foldl_cons, answersLoopStep_hit db attemptId quiz (acc, store) k v q o hr]
      exact ih _ _ (atMostOnePerKey_upsert store _ h)

/-- C6: answer recording is an upsert keyed on (attempt, question): the
upsert preserves at-most-one-row-per-key and makes the stored row the newly
submitted one; the whole answers loop preserves the invariant, and when the
last entry of a submission resolves to (question, option), the stored row
for that question afterwards records exactly that option. -/
theorem student_answer_upsert_idempotent :
    (∀ store : List StudentAnswer, ∀ a : StudentAnswer,
      atMostOnePerKey store → atMostOnePerKey (updateOrCreateAnswer store a))
    ∧ (∀ store : List StudentAnswer, ∀ a : StudentAnswer,
      lookupAnswer (updateOrCreateAnswer store a) a.attemptId a.questionId
        = some a)
    ∧ (∀ db : Database, ∀ attemptId : Int, ∀ quiz : Quiz,
      ∀ store : List StudentAnswer, ∀ entries : List (String × Json),
      atMostOnePerKey store →
      atMostOnePerKey (answersLoop db attemptId quiz store entries).2)
    ∧ (∀ db : Database, ∀ attemptId : Int, ∀ quiz : Quiz,
      ∀ store : List StudentAnswer, ∀ entries : List (String × Json),
      ∀ k : String, ∀ v : Json, ∀ q : Question, ∀ o : QuizOption,
      resolveEntry db quiz k v = some (q, o) →
      lookupAnswer (answersLoop db attemptId quiz store (entries ++ [(k, v)])).2
          attemptId q.id
        = some { attemptId := attemptId, questionId := q.id,
                 selectedOptionId := o.id, is_correct := o.is_correct }) := by
  refine ⟨fun store a h => atMostOnePerKey_upsert store a h,
    fun store a => lookupAnswer_upsert store a,
    fun db attemptId quiz store entries h =>
      atMostOnePerKey_loop db attemptId quiz entries _ store h,
    ?_⟩
  intro db attemptId quiz store entries k v q o hr
  unfold answersLoop
  rw [List.foldl_append, List.foldl_cons, List.foldl_nil]
  rw [answersLoopStep_hit db attemptId quiz _ k v q o hr]
  exact lookupAnswer_upsert _ _

/-- Witness for C6: submitting question 1 twice (first option 12, then
option 11) leaves a single row holding the later option 11. -/
theorem student_answer_upsert_idempotent_witness :
    resolveEntry db0 quiz0 "1" (Json.str "11")
        = some ({ id := 1, quizId := 1, marks := 5 },
                { id := 11, questionId := 1, is_correct := true })
    ∧ lookupAnswer
        (answersLoop db0 7 quiz0 []
          ([("1", Json.str "12")] ++ [("1", Json.str "11")])).2 7 1
      = some { attemptId := 7, questionId := 1, selectedOptionId := 11,
               is_correct := true }
    ∧ atMostOnePerKey
        (answersLoop db0 7 quiz0 [] [("1", Json.str "12"), ("1", Json.str "11")]).2 :=
  ⟨by rfl,
   student_answer_upsert_idempotent.2.2.2 db0 7 quiz0 []
     [("1", Json.str "12")] "1" (Json.str "11")
     { id := 1, quizId := 1, marks := 5 }
     { id := 11, questionId := 1, is_correct := true } (by rfl),
   student_answer_upsert_idempotent.2.2.1 db0 7 quiz0 []
     [("1", Json.str "12"), ("1", Json.str "11")]
     (fun aid qid => by simp [answerCountFor])⟩

/-- C4: a submission whose body has a malformed top-level structure — an
undecodable body or a decoded value that is not a mapping — yields a
failure response (`success: false` with an error), performs no grading,
and leaves the answer store and the attempts unchanged. -/
theorem malformed_body_rejected (db : Database) (store : List StudentAnswer)
    (attempts : List Attempt) (userId quizId : Int) (body : Option Json)
    (now : Int)
    (h : ∀ fields : List (String × Json), body ≠ some (Json.obj fields)) :
    (submit_quiz db store attempts userId quizId body now).1.isFailure = true
    ∧ (submit_quiz db store attempts userId quizId body now).2.1 = store
    ∧ (submit_quiz db store attempts userId quizId body now).2.2 = attempts := by
  cases body with
  | none => exact ⟨rfl, rfl, rfl⟩
  | some j =>
    cases j with
    | obj fields => exact absurd rfl (h fields)
    | arr elems => exact ⟨rfl, rfl, rfl⟩
    | str s => exact ⟨rfl, rfl, rfl⟩
    | num n => exact ⟨rfl, rfl, rfl⟩
    | boolean b => exact ⟨rfl, rfl, rfl⟩
    | null => exact ⟨rfl, rfl, rfl⟩

/-- Witness for C4: a decodable body whose top level is a JSON array. -/
theorem malformed_body_rejected_witness :
    (∀ fields : List (String × Json),
      (some (Json.arr []) : Option Json) ≠ some (Json.obj fields))
    ∧ ((submit_quiz db0 [] [attempt0] 1 1 (some (Json.arr [])) 9).1.isFailure = true
      ∧ (submit_quiz db0 [] [attempt0] 1 1 (some (Json.arr [])) 9).2.1 = []
      ∧ (submit_quiz db0 [] [attempt0] 1 1 (some (Json.arr [])) 9).2.2 = [attempt0]) :=
  by
  constructor
  · intro fields hc
    cases hc
  · exact malformed_body_rejected db0 [] [attempt0] 1 1 (some (Json.arr [])) 9
      (by intro fields hc; cases hc)

/-- C7: when the grading transaction body raises an unexpected error
(anything beyond the tolerated per-entry skips), the submit view answers
with a failure response carrying that error, no StudentAnswer writes
survive (the store is unchanged), the attempts are unchanged, and the
attempt that was being graded is still in_progress — safe to retry. -/
theorem submission_transaction_rollback (db : Database)
    (store : List StudentAnswer) (attempts : List Attempt)
    (userId quizId now : Int) (body : Option Json) (data : SubmissionData)
    (quiz : Quiz) (attempt : Attempt) (e : PyErr)
    (hp : parse_submission_data body = .ok (some data))
    (hq : findQuiz db quizId = some quiz)
    (ha : get_quiz_attempt attempts userId quizId = some attempt)
    (hf : process_quiz_submission db attempt quiz data store now = .error e) :
    submit_quiz db store attempts userId quizId body now
        = (.internalError e, store, attempts)
    ∧ attempt.status = .in_progress
    ∧ attempt ∈ attempts := by
  have hmem : attempt ∈ attempts.filter (fun a =>
      a.studentId == userId && a.quizId == quizId
        && a.status == AttemptStatus.in_progress) := by
    unfold get_quiz_attempt at ha
    exact List.mem_of_mem_head? ha
  have hpred := (List.mem_filter.mp hmem).2
  simp only [Bool.and_eq_true, beq_iff_eq] at hpred
  refine ⟨?_, hpred.2, (List.mem_filter.mp hmem).1⟩
  unfold submit_quiz
  rw [hp, hq, ha]
  dsimp only
  rw [hf]

/-- Witness for C7: the answers loop upserts an answer, then
`int("abc")` raises inside the transaction; the caller sees the error and
both store and attempts are unchanged. -/
theorem submission_transaction_rollback_witness :
    parse_submission_data body7 = .ok (some data7)
    ∧ findQuiz db0 1 = some quiz0
    ∧ get_quiz_attempt [attempt0] 1 1 = some attempt0
    ∧ process_quiz_submission db0 attempt0 quiz0 data7 [] 9
        = .error .valueError
    ∧ (submit_quiz db0 [] [attempt0] 1 1 body7 9
          = (.internalError .valueError, [], [attempt0])
      ∧ attempt0.status = .in_progress
      ∧ attempt0 ∈ [attempt0]) :=
  ⟨by rfl, by rfl, by rfl, by rfl,
   submission_transaction_rollback db0 [] [attempt0] 1 1 9 body7 data7 quiz0
     attempt0 .valueError (by rfl) (by rfl) (by rfl) (by rfl)⟩

/-- Helper: Python `round(0, 2)` is `0`. -/
theorem pyRound2_zero : pyRound2 0 = 0 := by
  unfold pyRound2
  norm_num

/-- Helper: finalizing with zero accumulators and zero time yields the
empty-submission attempt record and a zeroed success payload. -/
theorem finalize_attempt_empty (attempt : Attempt) (quiz : Quiz) (now : Int) :
    finalize_attempt attempt quiz 0 0 0 0 (Json.num 0) now
      = .ok (finalizedEmpty attempt now,
             { attempt_id := attempt.id, score := 0, max_score := 0,
               percentage := 0, passed := false }) := by
  unfold finalize_attempt pyIntOfJson
  dsimp only
  simp only [gt_iff_lt, lt_self_iff_false, if_false]
  rw [pyRound2_zero]
  rfl

/-- C10: a well-formed JSON object body without an `answers` key (or with
an empty answers mapping) and no `time_spent` key is accepted: the attempt
finalizes with zero score, zero max_score, percentage 0, passed false and
time_spent 0, becoming completed — and when it was the only in_progress
attempt for this (student, quiz), no in_progress attempt remains. -/
theorem empty_submission_consumes_attempt (db : Database)
    (store : List StudentAnswer) (attempts : List Attempt)
    (userId quizId now : Int) (fields : List (String × Json))
    (quiz : Quiz) (attempt : Attempt)
    (hq : findQuiz db quizId = some quiz)
    (ha : get_quiz_attempt attempts userId quizId = some attempt)
    (hans : jsonGet fields "answers" = none
      ∨ jsonGet fields "answers" = some (Json.obj []))
    (hts : jsonGet fields "time_spent" = none) :
    submit_quiz db store attempts userId quizId (some (Json.obj fields)) now
        = (.ok { attempt_id := attempt.id, score := 0, max_score := 0,
                 percentage := 0, passed := false },
           store, saveAttempt attempts (finalizedEmpty attempt now))
    ∧ (finalizedEmpty attempt now).status = .completed
    ∧ (finalizedEmpty attempt now).score = 0
    ∧ (finalizedEmpty attempt now).max_score = 0
    ∧ (finalizedEmpty attempt now).percentage = some 0
    ∧ (finalizedEmpty attempt now).passed = false
    ∧ (finalizedEmpty attempt now).time_spent = 0
    ∧ (attempts.filter (fun a => a.studentId == userId && a.quizId == quizId
          && a.status == AttemptStatus.in_progress) = [attempt] →
        get_quiz_attempt (saveAttempt attempts (finalizedEmpty attempt now))
            userId quizId = none) := by
  have hdata : parse_submission_data (some (Json.obj fields))
      = .ok (some { answers := Json.obj [], time_spent := Json.num 0 }) := by
    unfold parse_submission_data
    dsimp only
    rcases hans with h | h <;> rw [h, hts] <;> rfl
  refine ⟨?_, rfl, rfl, rfl, rfl, rfl, rfl, ?_⟩
  · unfold submit_quiz
    rw [hdata]
    dsimp only
    rw [hq]
    dsimp only
    rw [ha]
    dsimp only
    unfold process_quiz_submission
    dsimp only
    rw [show answersLoop db attempt.id quiz store []
        = ({ total_score := 0, max_score := 0, correct_count := 0,
             incorrect_count := 0 }, store) from rfl]
    dsimp only
    rw [finalize_attempt_empty]
    rfl
  · intro hfilter
    unfold get_quiz_attempt saveAttempt
    have hnil : (attempts.map (fun a =>
        if a.id == (finalizedEmpty attempt now).id
        then finalizedEmpty attempt now else a)).filter
        (fun a => a.studentId == userId && a.quizId == quizId
          && a.status == AttemptStatus.in_progress) = [] := by
      rw [List.filter_eq_nil_iff]
      intro x hx
      obtain ⟨b, hb, hfb⟩ := List.mem_map.mp hx
      by_cases hid : (b.id == (finalizedEmpty attempt now).id) = true
      · rw [if_pos hid] at hfb
        subst hfb
        simp [finalizedEmpty]
      · rw [if_neg hid] at hfb
        subst hfb
        intro hpred
        have hbmem : b ∈ attempts.filter (fun a =>
            a.studentId == userId && a.quizId == quizId
              && a.status == AttemptStatus.in_progress) :=
          List.mem_filter.mpr ⟨hb, hpred⟩
        rw [hfilter] at hbmem
        have hba : b = attempt := List.mem_singleton.mp hbmem
        subst hba
        simp [finalizedEmpty] at hid
    rw [hnil]
    rfl

/-- Witness for C10: a body of `{}` against the fixture attempt — accepted,
finalized at zero, and the only in_progress attempt is consumed. -/
theorem empty_submission_consumes_attempt_witness :
    findQuiz db0 1 = some quiz0
    ∧ get_quiz_attempt [attempt0] 1 1 = some attempt0
    ∧ (jsonGet [] "answers" = none
      ∨ jsonGet [] "answers" = some (Json.obj []))
    ∧ jsonGet [] "time_spent" = none
    ∧ (submit_quiz db0 [] [attempt0] 1 1 (some (Json.obj [])) 4
          = (.ok { attempt_id := attempt0.id, score := 0, max_score := 0,
                   percentage := 0, passed := false },
             [], saveAttempt [attempt0] (finalizedEmpty attempt0 4))
      ∧ (finalizedEmpty attempt0 4).status = .completed
      ∧ (finalizedEmpty attempt0 4).score = 0
      ∧ (finalizedEmpty attempt0 4).max_score = 0
      ∧ (finalizedEmpty attempt0 4).percentage = some 0
      ∧ (finalizedEmpty attempt0 4).passed = false
      ∧ (finalizedEmpty attempt0 4).time_spent = 0
      ∧ (List.filter (fun a => a.studentId == 1 && a.quizId == 1
            && a.status == AttemptStatus.in_progress) [attempt0] = [attempt0] →
          get_quiz_attempt (saveAttempt [attempt0] (finalizedEmpty attempt0 4))
              1 1 = none)) :=
  ⟨by rfl, by rfl, Or.inl (by rfl), by rfl,
   empty_submission_consumes_attempt db0 [] [attempt0] 1 1 4 [] quiz0 attempt0
     (by rfl) (by rfl) (Or.inl (by rfl)) (by rfl)⟩

end Quizmaster